import Mathlib

/-
Shallow embedding of the streampipes repository's two source files:
  src/noise.rs — the Noise_XK session (`NoiseXk`), its two-state peer
    address (`XkAddr`), the read/write placeholder handshake logic, and the
    split into reader/writer halves;
  src/wire.rs — the listener (`NetAccept`) and the transport readable-event
    state machine (`handle_readable` of `NetTransport`).
External collaborators (the raw connection capability, the cyphernet noise
transcoder) are modelled through the narrow interfaces the two files use:
a connection is a scripted record of read outcomes / written buffers, the
transcoder is either in a handshake phase or split into cipher halves.
Rust mutation of `&mut self` is modelled by returning the new value;
`panic!` / `.expect` outcomes are modelled as `Option`/dedicated variants.
-/

namespace StreamPipes

/-- The subset of io::ErrorKind values the two source files mention. -/
inductive IoErrorKind where
  | notConnected
  | wouldBlock
  | interrupted
  | invalidInput
  | other
deriving DecidableEq

/-- cyphernet's PeerAddr: a peer identity together with a raw address. -/
structure PeerAddr (Id A : Type) where
  id : Id
  addr : A
deriving DecidableEq

/-- XkAddr (src/noise.rs): a bare address, or an address with a verified
peer identity. -/
inductive XkAddr (Id A : Type) where
  | Partial (a : A)
  | Full (pa : PeerAddr Id A)
deriving DecidableEq

/-- XkAddr::upgrade (src/noise.rs lines 98-106): on Partial, mutate in place
to Full and return true; on Full, return false and leave the value. The
mutated value is returned as the second component. -/
def XkAddr.upgrade {Id A : Type} : XkAddr Id A → Id → Bool × XkAddr Id A
  | .Partial a, i => (true, .Full ⟨i, a⟩)
  | .Full pa, _ => (false, .Full pa)

/-- XkAddr::as_addr (src/noise.rs lines 108-113): the raw address of either
variant. -/
def XkAddr.as_addr {Id A : Type} : XkAddr Id A → A
  | .Partial a => a
  | .Full pa => pa.addr

/-- XkAddr::expect_peer_addr (src/noise.rs lines 115-120): panics on
Partial (modelled as none), returns the peer address on Full. -/
def XkAddr.expect_peer_addr {Id A : Type} : XkAddr Id A → Option (PeerAddr Id A)
  | .Partial _ => none
  | .Full pa => some pa

/-- Outcome of one read call on the raw connection capability. -/
inductive ReadStep where
  | bytes (b : List Nat)
  | fail (e : IoErrorKind)
deriving DecidableEq

/-- The raw connection capability (the `S : NetConnection` collaborator):
its remote address, a script of outcomes for successive read calls, the log
of buffers written so far, and whether splitting it into halves fails. -/
structure Conn (A : Type) where
  remoteAddr : A
  reads : List ReadStep
  writes : List (List Nat)
  splitErr : Option IoErrorKind
deriving DecidableEq

/-- NetConnection::read, modelled by consuming the next scripted outcome
(an empty script reads as would-block on the non-blocking socket). -/
def Conn.read {A : Type} (c : Conn A) : Except IoErrorKind (List Nat) × Conn A :=
  match c.reads with
  | [] => (.error .wouldBlock, c)
  | .bytes b :: rest => (.ok b, { c with reads := rest })
  | .fail e :: rest => (.error e, { c with reads := rest })

/-- NetConnection::write, modelled as appending the buffer to the write log
and reporting its full length. -/
def Conn.write {A : Type} (c : Conn A) (buf : List Nat) :
    Except IoErrorKind Nat × Conn A :=
  (.ok buf.length, { c with writes := c.writes ++ [buf] })

/-- The read half of a split connection (carries the socket's identity the
way a cloned stream does). -/
structure ConnReadHalf (A : Type) where
  remoteAddr : A
  reads : List ReadStep
deriving DecidableEq

/-- The write half of a split connection. -/
structure ConnWriteHalf (A : Type) where
  remoteAddr : A
  writes : List (List Nat)
deriving DecidableEq

/-- NetConnection::split_io: fails (returning the original and the error)
when the connection's split is scripted to fail, else yields the halves. -/
def Conn.split_io {A : Type} (c : Conn A) :
    Except (Conn A × IoErrorKind) (ConnReadHalf A × ConnWriteHalf A) :=
  match c.splitErr with
  | some e => .error (c, e)
  | none => .ok (⟨c.remoteAddr, c.reads⟩, ⟨c.remoteAddr, c.writes⟩)

/-- NetConnection::from_split_io: rejoin the halves into one connection. -/
def Conn.from_split_io {A : Type} (r : ConnReadHalf A) (w : ConnWriteHalf A) :
    Conn A :=
  ⟨r.remoteAddr, r.reads, w.writes, none⟩

/-- The cyphernet NoiseTranscoder<NoiseXkState> collaborator, through the
interface src/noise.rs uses: constructed in an initiator or responder
handshake phase, or (after the handshake) holding split cipher halves.
Key material and cipher halves are abstract tokens (Nat). -/
inductive NoiseTranscoder where
  | hsInitiator (localKey remoteKey : Nat)
  | hsResponder (localKey : Nat)
  | transport (enc dec : Nat)
deriving DecidableEq

/-- NoiseTranscoder::with_xk_initiator. -/
def NoiseTranscoder.with_xk_initiator (lk rk : Nat) : NoiseTranscoder :=
  .hsInitiator lk rk

/-- NoiseTranscoder::with_xk_responder. -/
def NoiseTranscoder.with_xk_responder (lk : Nat) : NoiseTranscoder :=
  .hsResponder lk

/-- NoiseTranscoder::try_into_split: yields the (encryptor, decryptor)
halves once the handshake phase is over, else returns the transcoder. -/
def NoiseTranscoder.try_into_split :
    NoiseTranscoder → Except NoiseTranscoder (Nat × Nat)
  | .transport e d => .ok (e, d)
  | t => .error t

/-- NoiseTranscoder::with_split: rebuild a transcoder from cipher halves. -/
def NoiseTranscoder.with_split (enc dec : Nat) : NoiseTranscoder :=
  .transport enc dec

/-- Whether the handshake state machine of the transcoder reports
completion (it does exactly when it has reached the transport phase). -/
def NoiseTranscoder.is_complete : NoiseTranscoder → Bool
  | .transport _ _ => true
  | _ => false

/-- E::Pk::generator() — the curve base point, a fixed constant of the key
type, modelled as an abstract token. It carries no information about the
remote peer. -/
def generatorPk : Nat := 0

/-- NoiseXk (src/noise.rs lines 151-156): the session. Peer identities are
abstract tokens (Nat); the raw-address type A stays generic. -/
structure NoiseXk (A : Type) where
  remote_addr : XkAddr Nat A
  connection : Conn A
  transcoder : NoiseTranscoder
  established : Bool
deriving DecidableEq

/-- impl Read for NoiseXk (src/noise.rs lines 164-174): if not yet
established, set the flag, upgrade the address with the generator constant
and return Ok with zero bytes; otherwise read from the connection. -/
def NoiseXk.read {A : Type} (s : NoiseXk A) :
    Except IoErrorKind (List Nat) × NoiseXk A :=
  if !s.established then
    (.ok [], { s with
               established := true,
               remote_addr := (s.remote_addr.upgrade generatorPk).2 })
  else
    let (r, c) := s.connection.read
    (r, { s with connection := c })

/-- impl Write for NoiseXk (src/noise.rs lines 176-183): if not yet
established, set the flag; then write the caller's buffer verbatim to the
connection. -/
def NoiseXk.write {A : Type} (s : NoiseXk A) (buf : List Nat) :
    Except IoErrorKind Nat × NoiseXk A :=
  let s := if !s.established then { s with established := true } else s
  let (r, c) := s.connection.write buf
  (r, { s with connection := c })

/-- NoiseXkReader (src/noise.rs lines 123-127). -/
structure NoiseXkReader (A : Type) where
  remote_addr : PeerAddr Nat A
  reader : ConnReadHalf A
  decryptor : Nat
deriving DecidableEq

/-- NoiseXkWriter (src/noise.rs lines 129-133). -/
structure NoiseXkWriter (A : Type) where
  remote_addr : PeerAddr Nat A
  writer : ConnWriteHalf A
  encryptor : Nat
deriving DecidableEq

/-- Result of NoiseXk::split_io: a panic (expect_peer_addr on a Partial
address), a failure carrying the restored original session and the error,
or the two halves. -/
inductive SplitResult (A : Type) where
  | panicked
  | failed (original : NoiseXk A) (e : IoErrorKind)
  | split (r : NoiseXkReader A) (w : NoiseXkWriter A)
deriving DecidableEq

/-- NoiseXk::split_io (src/noise.rs lines 198-242), with the source's
control flow: the established guard, expect_peer_addr, the connection
split (restoring the connection on failure), then the transcoder split
(restoring transcoder and connection on failure). -/
def NoiseXk.split_io {A : Type} (s : NoiseXk A) : SplitResult A :=
  if !s.established then .failed s .notConnected
  else
    match s.remote_addr.expect_peer_addr with
    | none => .panicked
    | some peer_addr =>
      match s.connection.split_io with
      | .error (original, e) => .failed { s with connection := original } e
      | .ok (reader, writer) =>
        match s.transcoder.try_into_split with
        | .error transcoder =>
          .failed { s with
                    transcoder := transcoder,
                    connection := Conn.from_split_io reader writer }
            .notConnected
        | .ok (encryptor, decryptor) =>
          .split ⟨peer_addr, reader, decryptor⟩ ⟨peer_addr, writer, encryptor⟩

/-- NoiseXk::from_split_io (src/noise.rs lines 244-254): panics (none) when
the halves record different peer addresses, else rebuilds the session with
the rejoined transcoder and connection and the established flag set. -/
def NoiseXk.from_split_io {A : Type} [DecidableEq A]
    (r : NoiseXkReader A) (w : NoiseXkWriter A) : Option (NoiseXk A) :=
  if r.remote_addr ≠ w.remote_addr then none
  else
    some { remote_addr := .Full w.remote_addr,
           transcoder := .with_split w.encryptor r.decryptor,
           connection := Conn.from_split_io r.reader w.writer,
           established := true }

/-- NetSession::accept for NoiseXk (src/noise.rs lines 264-273): a session
in responder role with a Partial address and the flag down. `localKey` is
the local static key already converted into the handshake's key space (the
source's expect-panic on an invalid key is outside the modelled states). -/
def NoiseXk.accept {A : Type} (connection : Conn A) (localKey : Nat) :
    NoiseXk A :=
  { remote_addr := .Partial connection.remoteAddr,
    connection := connection,
    transcoder := .with_xk_responder localKey,
    established := false }

/-- NetSession::connect_blocking for NoiseXk (src/noise.rs lines 275-291):
convert the declared peer identity into the handshake key space (failure is
an invalid-input error), dial the socket, and build an initiator session
whose address is already Full with the declared peer address and whose flag
is down. `edToX` models x25519::PublicKey::from_ed25519; `socket` the
outcome of S::connect_blocking. -/
def NoiseXk.connect_blocking {A : Type} (edToX : Nat → Option Nat)
    (localKey : Nat) (pa : PeerAddr Nat A)
    (socket : Except IoErrorKind (Conn A)) :
    Except IoErrorKind (NoiseXk A) :=
  match edToX pa.id with
  | none => .error .invalidInput
  | some remote_key =>
    match socket with
    | .error e => .error e
    | .ok sock =>
      .ok { remote_addr := .Full pa,
            connection := sock,
            transcoder := .with_xk_initiator localKey remote_key,
            established := false }

/-- NoiseXk::session_id (src/noise.rs lines 312-317). -/
def NoiseXk.session_id {A : Type} (s : NoiseXk A) : Option Nat :=
  match s.remote_addr with
  | .Partial _ => none
  | .Full a => some a.id

/-- NoiseXk::peer_addr (src/noise.rs lines 327-332). -/
def NoiseXk.peer_addr {A : Type} (s : NoiseXk A) : Option (PeerAddr Nat A) :=
  match s.remote_addr with
  | .Partial _ => none
  | .Full addr => some addr

/-- NoiseXk::handshake_completed (src/noise.rs lines 319-321): the
established flag (not the transcoder's state). -/
def NoiseXk.handshake_completed {A : Type} (s : NoiseXk A) : Bool :=
  s.established

/-- TransportState (src/wire.rs lines 101-106). -/
inductive TransportState where
  | Handshake
  | Active
  | Terminated
deriving DecidableEq

/-- SessionEvent (src/wire.rs lines 95-99). -/
inductive SessionEvent where
  | Established (id : Nat)
  | Data (bytes : List Nat)
  | Terminated (e : IoErrorKind)
deriving DecidableEq

/-- Outcome of `session.read_to_end(&mut buffer)` as handle_readable sees
it: Ok with the buffer, or an error with whatever was read into the buffer
before the error. -/
inductive ReadOutcome where
  | ok (buffer : List Nat)
  | fail (e : IoErrorKind) (buffer : List Nat)
deriving DecidableEq

/-- NetTransport::handle_readable (src/wire.rs lines 175-217) as a pure
function of the transport state, the read outcome, the session's
handshake_completed flag after the read, and the session id — the
observables the body consults. Returns the event and the new state. The
debug assertions are no-ops (release semantics). The source's binding
`was_established = (state == Handshake)` is kept verbatim. -/
def handle_readable (state : TransportState) (res : ReadOutcome)
    (handshake_completed : Bool) (session_id : Nat) :
    Option SessionEvent × TransportState :=
  let was_established : Bool := state = TransportState.Handshake
  match res with
  | .ok [] =>
    if !was_established then
      if handshake_completed then
        (some (.Established session_id), .Active)
      else
        (none, state)
    else
      (some (.Terminated .interrupted), .Terminated)
  | .ok buffer => (some (.Data buffer), state)
  | .fail e buffer =>
    if e = .wouldBlock then (some (.Data buffer), state)
    else (some (.Terminated e), .Terminated)

/-- reactor's IoEv readiness flags. -/
structure IoEv where
  is_readable : Bool
  is_writable : Bool
deriving DecidableEq

/-- ListenerEvent (src/wire.rs lines 19-23), for the NoiseXk session. -/
inductive ListenerEvent (A : Type) where
  | Accepted (session : NoiseXk A)
  | Failure (e : IoErrorKind)
deriving DecidableEq

/-- Outcome of one accept call on the OS listener socket. -/
inductive AcceptOutcome (A : Type) where
  | conn (c : Conn A)
  | fail (e : IoErrorKind)
deriving DecidableEq

/-- NetAccept (src/wire.rs lines 26-29): the session context and the
listener socket, the latter modelled as the queue of outcomes successive
non-blocking accept calls produce (empty queue: would-block). -/
structure NetAccept (A : Type) where
  session_context : Nat
  pending : List (AcceptOutcome A)
deriving DecidableEq

/-- NetAccept::handle_accept (src/wire.rs lines 61-67): one non-blocking
accept; on success the stream's timeouts and non-blocking mode are
configured (no-ops on the modelled connection) and a responder session is
built from it. -/
def NetAccept.handle_accept {A : Type} (l : NetAccept A) :
    Except IoErrorKind (NoiseXk A) × NetAccept A :=
  match l.pending with
  | [] => (.error .wouldBlock, l)
  | .fail e :: rest => (.error e, { l with pending := rest })
  | .conn stream :: rest =>
    (.ok (NoiseXk.accept stream l.session_context), { l with pending := rest })

/-- NetAccept::handle_io (src/wire.rs lines 78-87): on a writable-flagged
event, one accept whose outcome becomes an Accepted or Failure event;
otherwise no event. -/
def NetAccept.handle_io {A : Type} (l : NetAccept A) (ev : IoEv) :
    Option (ListenerEvent A) × NetAccept A :=
  if ev.is_writable then
    match l.handle_accept with
    | (.error e, l2) => (some (.Failure e), l2)
    | (.ok session, l2) => (some (.Accepted session), l2)
  else (none, l)

/-- C1: the claim says a read on a not-established session feeds bytes to
the transcoder and returns zero-length reads until the handshake state
machine reports completion, then promotes the address with the
handshake-produced identity. Evaluating the code at a fresh responder
session: a single read returns Ok with zero bytes, raises the established
flag and promotes the address to Full with the fixed generator constant,
while the transcoder is untouched and its handshake state machine still
does not report completion. -/
theorem c1_read_completes_without_handshake :
    (NoiseXk.accept (A := Nat) ⟨7, [], [], none⟩ 5).read
      = (.ok [], ⟨.Full ⟨generatorPk, 7⟩, ⟨7, [], [], none⟩,
                  .hsResponder 5, true⟩) ∧
    ((NoiseXk.accept (A := Nat) ⟨7, [], [], none⟩ 5).read).2.established
      = true ∧
    ((NoiseXk.accept (A := Nat) ⟨7, [], [], none⟩ 5).read).2.transcoder
      = (NoiseXk.accept (A := Nat) ⟨7, [], [], none⟩ 5).transcoder ∧
    ((NoiseXk.accept (A := Nat) ⟨7, [], [], none⟩ 5).read).2.transcoder.is_complete
      = false :=
  ⟨rfl, rfl, rfl, rfl⟩

/-- C2: the claim says Handshake + zero read + incomplete stays Handshake
with no event, Handshake + zero read + complete becomes Active with an
Established event, and Active + zero read becomes Terminated. Evaluating
the code: in Handshake a zero read always terminates (both completion
values), and in Active a zero read emits Established (when the session
reports completion) or nothing — the source's was_established binding is
inverted against its own name, the data-arm debug assertion and the
orderly-shutdown comment. -/
theorem c2_handshake_zero_read_evaluation :
    handle_readable .Handshake (.ok []) false 4
      = (some (.Terminated .interrupted), .Terminated) ∧
    handle_readable .Handshake (.ok []) true 4
      = (some (.Terminated .interrupted), .Terminated) ∧
    handle_readable .Active (.ok []) true 4
      = (some (.Established 4), .Active) ∧
    handle_readable .Active (.ok []) false 4 = (none, .Active) := by
  decide

/-- C3: the claim says established is synchronized with the Partial-to-Full
promotion, so established implies a Full address. Evaluating the code at a
fresh responder session: one write raises the established flag while the
remote address stays Partial. -/
theorem c3_write_establishes_without_promotion :
    (((NoiseXk.accept (A := Nat) ⟨7, [], [], none⟩ 5).write [1, 2]).2).established
      = true ∧
    (((NoiseXk.accept (A := Nat) ⟨7, [], [], none⟩ 5).write [1, 2]).2).remote_addr
      = XkAddr.Partial 7 := by
  decide

/-- C4 counterexample: the claim says a would-block read outcome emits no
event; at a concrete input the code emits a Data event. -/
theorem c4_would_block_emits_event :
    (handle_readable .Active (.fail .wouldBlock [9]) true 0).1 ≠ none := by
  decide

/-- C4 amended: a would-block read outcome leaves the state unchanged but
emits a Data event carrying the bytes read before blocking (possibly
empty). -/
theorem c4_would_block_state_unchanged_data_event (state : TransportState)
    (hs : Bool) (sid : Nat) (buffer : List Nat) :
    handle_readable state (.fail .wouldBlock buffer) hs sid
      = (some (.Data buffer), state) := by
  cases state <;> rfl

/-- C8: upgrade on Partial succeeds and yields Full with the given identity
and the same raw address; a second upgrade with any identity fails and
leaves the Full value unchanged; as_addr returns the raw address both
before and after the upgrade. -/
theorem c8_upgrade_once_as_addr {Id A : Type} (a : A) (i i2 : Id) :
    XkAddr.upgrade (.Partial a) i = (true, .Full ⟨i, a⟩) ∧
    XkAddr.upgrade (.Full ⟨i, a⟩) i2 = (false, .Full ⟨i, a⟩) ∧
    XkAddr.as_addr (XkAddr.Partial a : XkAddr Id A) = a ∧
    XkAddr.as_addr (XkAddr.Full ⟨i, a⟩ : XkAddr Id A) = a :=
  ⟨rfl, rfl, rfl, rfl⟩

/-- C5: split_io on a session whose established flag is false fails with a
not-connected error and returns the session unchanged. -/
theorem c5_split_not_established {A : Type} (s : NoiseXk A)
    (h : s.established = false) :
    s.split_io = .failed s .notConnected := by
  unfold NoiseXk.split_io
  rw [h]
  rfl

/-- C5 witness: a fresh responder session is not established, and splitting
it fails with not-connected, returning it unchanged. -/
theorem c5_split_not_established_witness :
    (NoiseXk.accept (A := Nat) ⟨7, [], [], none⟩ 5).split_io
      = .failed (NoiseXk.accept ⟨7, [], [], none⟩ 5) .notConnected :=
  c5_split_not_established _ rfl

/-- C6: whenever split_io succeeds on a session, rejoining the two halves
with from_split_io rebuilds exactly the original session — same verified
address, established flag true, and the same transcoder cipher state and
connection, so subsequent writes behave as if no split occurred. -/
theorem c6_split_join_roundtrip {A : Type} [DecidableEq A] (s : NoiseXk A)
    (r : NoiseXkReader A) (w : NoiseXkWriter A)
    (h : s.split_io = .split r w) :
    NoiseXk.from_split_io r w = some s := by
  obtain ⟨ra, c, t, est⟩ := s
  cases est with
  | false => simp [NoiseXk.split_io] at h
  | true =>
    cases ra with
    | Partial a => simp [NoiseXk.split_io, XkAddr.expect_peer_addr] at h
    | Full pa =>
      obtain ⟨ca, cr, cw, se⟩ := c
      cases se with
      | some e =>
        simp [NoiseXk.split_io, XkAddr.expect_peer_addr, Conn.split_io] at h
      | none =>
        cases t with
        | hsInitiator lk rk =>
          simp [NoiseXk.split_io, XkAddr.expect_peer_addr, Conn.split_io,
            NoiseTranscoder.try_into_split] at h
        | hsResponder lk =>
          simp [NoiseXk.split_io, XkAddr.expect_peer_addr, Conn.split_io,
            NoiseTranscoder.try_into_split] at h
        | transport enc dec =>
          simp [NoiseXk.split_io, XkAddr.expect_peer_addr, Conn.split_io,
            NoiseTranscoder.try_into_split] at h
          obtain ⟨hr, hw⟩ := h
          subst hr
          subst hw
          simp [NoiseXk.from_split_io, NoiseTranscoder.with_split,
            Conn.from_split_io]

/-- C6 witness: a concrete established session with a Full address and a
transport-phase transcoder; splitting it and rejoining the produced halves
yields the session back. -/
theorem c6_split_join_roundtrip_witness :
    NoiseXk.from_split_io (A := Nat) ⟨⟨2, 5⟩, ⟨5, []⟩, 11⟩ ⟨⟨2, 5⟩, ⟨5, []⟩, 10⟩
      = some ⟨.Full ⟨2, 5⟩, ⟨5, [], [], none⟩, .transport 10 11, true⟩ :=
  c6_split_join_roundtrip
    ⟨.Full ⟨2, 5⟩, ⟨5, [], [], none⟩, .transport 10 11, true⟩ _ _ rfl

/-- C7: from_split_io on a reader and writer whose recorded verified peer
addresses differ panics (modelled as none): it never returns a merged
session. -/
theorem c7_join_mismatch_never_merges {A : Type} [DecidableEq A]
    (r : NoiseXkReader A) (w : NoiseXkWriter A)
    (h : r.remote_addr ≠ w.remote_addr) :
    NoiseXk.from_split_io r w = none := by
  simp [NoiseXk.from_split_io, h]

/-- C7 witness: two concrete halves recording different peer identities are
never merged. -/
theorem c7_join_mismatch_witness :
    NoiseXk.from_split_io (A := Nat) ⟨⟨1, 2⟩, ⟨2, []⟩, 0⟩ ⟨⟨3, 2⟩, ⟨2, []⟩, 0⟩
      = none :=
  c7_join_mismatch_never_merges _ _ (by decide)

/-- C9: a readiness event the listener does not treat as accept-readiness
produces no ListenerEvent and leaves the listener unchanged; an
accept-readiness event performs exactly one non-blocking accept (consuming
at most one pending connection) and produces exactly one event, an
Accepted session or a Failure. -/
theorem c9_listener_event_discipline {A : Type} (l : NetAccept A)
    (ev : IoEv) :
    (ev.is_writable = false → l.handle_io ev = (none, l)) ∧
    (ev.is_writable = true →
      ((l.handle_io ev).2.pending = l.pending.tail ∧
        ∃ out, (l.handle_io ev).1 = some out ∧
          ((∃ s, out = ListenerEvent.Accepted s) ∨
            (∃ e, out = ListenerEvent.Failure e)))) := by
  obtain ⟨ctx, pending⟩ := l
  refine ⟨fun h => ?_, fun h => ?_⟩
  · simp [NetAccept.handle_io, h]
  · cases pending with
    | nil =>
      refine ⟨by simp [NetAccept.handle_io, NetAccept.handle_accept, h],
        .Failure .wouldBlock,
        by simp [NetAccept.handle_io, NetAccept.handle_accept, h],
        .inr ⟨_, rfl⟩⟩
    | cons hd rest =>
      cases hd with
      | fail e =>
        refine ⟨by simp [NetAccept.handle_io, NetAccept.handle_accept, h],
          .Failure e,
          by simp [NetAccept.handle_io, NetAccept.handle_accept, h],
          .inr ⟨_, rfl⟩⟩
      | conn c =>
        refine ⟨by simp [NetAccept.handle_io, NetAccept.handle_accept, h],
          .Accepted (NoiseXk.accept c ctx),
          by simp [NetAccept.handle_io, NetAccept.handle_accept, h],
          .inl ⟨_, rfl⟩⟩

/-- C9 witness: a readable-but-not-writable event on a concrete listener
yields no event and no change; a writable event on the same listener
consumes its one pending connection. -/
theorem c9_listener_event_witness :
    NetAccept.handle_io (A := Nat) ⟨5, [.conn ⟨7, [], [], none⟩]⟩
        ⟨true, false⟩
      = (none, ⟨5, [.conn ⟨7, [], [], none⟩]⟩) ∧
    (NetAccept.handle_io (A := Nat) ⟨5, [.conn ⟨7, [], [], none⟩]⟩
        ⟨false, true⟩).2.pending
      = [AcceptOutcome.conn ⟨7, [], [], none⟩].tail :=
  ⟨(c9_listener_event_discipline _ _).1 rfl,
    ((c9_listener_event_discipline _ _).2 rfl).1⟩

/-- C10: every session connect_blocking returns successfully already has a
Full remote address holding the caller-declared peer address, its
established flag still false, and session_id, peer_addr and
handshake_completed report the declared identity, the declared address and
false respectively, before any handshake I/O. -/
theorem c10_connect_blocking_declared_identity {A : Type}
    (edToX : Nat → Option Nat) (lk : Nat) (pa : PeerAddr Nat A)
    (socket : Except IoErrorKind (Conn A)) (s : NoiseXk A)
    (h : NoiseXk.connect_blocking edToX lk pa socket = .ok s) :
    s.remote_addr = .Full pa ∧ s.established = false ∧
    s.session_id = some pa.id ∧ s.peer_addr = some pa ∧
    s.handshake_completed = false := by
  cases hk : edToX pa.id with
  | none => simp [NoiseXk.connect_blocking, hk] at h
  | some rk =>
    cases socket with
    | error e => simp [NoiseXk.connect_blocking, hk] at h
    | ok c =>
      simp [NoiseXk.connect_blocking, hk] at h
      subst h
      simp [NoiseXk.session_id, NoiseXk.peer_addr, NoiseXk.handshake_completed]

/-- C10 witness: a concrete successful connect_blocking; the returned
session carries the declared identity in a Full address with the flag
down. -/
theorem c10_connect_blocking_witness :
    (⟨.Full ⟨3, 9⟩, ⟨9, [], [], none⟩, .hsInitiator 1 3, false⟩ :
        NoiseXk Nat).remote_addr = .Full ⟨3, 9⟩ ∧
    (⟨.Full ⟨3, 9⟩, ⟨9, [], [], none⟩, .hsInitiator 1 3, false⟩ :
        NoiseXk Nat).established = false ∧
    (⟨.Full ⟨3, 9⟩, ⟨9, [], [], none⟩, .hsInitiator 1 3, false⟩ :
        NoiseXk Nat).session_id = some 3 ∧
    (⟨.Full ⟨3, 9⟩, ⟨9, [], [], none⟩, .hsInitiator 1 3, false⟩ :
        NoiseXk Nat).peer_addr = some ⟨3, 9⟩ ∧
    (⟨.Full ⟨3, 9⟩, ⟨9, [], [], none⟩, .hsInitiator 1 3, false⟩ :
        NoiseXk Nat).handshake_completed = false :=
  c10_connect_blocking_declared_identity Option.some 1 ⟨3, 9⟩
    (.ok ⟨9, [], [], none⟩) _ rfl

end StreamPipes
